import Mathlib

/-!
Verification development for the Airbnb price-predictor app (`app.py`).

The program is a Streamlit form that derives ten calendar/price features over a
14-day window (`generate_feature_engineering`), scales them with a pair of
min-max scalers, calls a loaded sequence model (`predict_prices`), and renders
a 7-day forecast table inside a try/except trigger handler (`main`).

Embedding choices:
* Calendar dates are modelled as proleptic-Gregorian epoch-day counts (days
  since 1970-01-01, as an `Int`); `civilFromDays`/`daysFromCivil` convert
  between day counts and (year, month, day) triples, matching the arithmetic
  of `datetime`/`pandas` timestamps at midnight.  `timedelta(days = i)` is
  `+ i` on epoch days.
* Numeric values are exact rationals; numpy arrays are a shape together with
  the row-major data list.
* The two `MinMaxScaler`s are fit on `np.random.rand` samples, so their fitted
  parameters are unknowable; they enter the embedding as parameters
  (`data_min_` / `data_max_` per feature, default `feature_range = (0, 1)`).
* The loaded Keras model (`LSTM_model.h5`, not part of the repository) enters
  as a function parameter from arrays to arrays.
* Fallible library calls (`reshape`, scaler `transform`/`inverse_transform`,
  `pd.DataFrame` construction) return `Except String`, carrying the message
  the library raises.
-/

namespace AirBnbApp

/-- Epoch-day count of a proleptic-Gregorian (year, month, day), with day 0 =
1970-01-01.  Standard civil-calendar conversion via 400-year eras; `Int`
division in Lean is floor division for positive divisors, which is what the
algorithm needs. -/
def daysFromCivil (y m d : Int) : Int :=
  let y2 := if m ≤ 2 then y - 1 else y
  let era := y2 / 400
  let yoe := y2 - era * 400
  let mp := (m + 9) % 12
  let doy := (153 * mp + 2) / 5 + d - 1
  let doe := yoe * 365 + yoe / 4 - yoe / 100 + doy
  era * 146097 + doe - 719468

/-- Inverse of `daysFromCivil`: the (year, month, day) triple of an epoch-day
count, proleptic Gregorian. -/
def civilFromDays (z : Int) : Int × Int × Int :=
  let z2 := z + 719468
  let era := z2 / 146097
  let doe := z2 - era * 146097
  let yoe := (doe - doe / 1460 + doe / 36524 - doe / 146096) / 365
  let y := yoe + era * 400
  let doy := doe - (365 * yoe + yoe / 4 - yoe / 100)
  let mp := (5 * doy + 2) / 153
  let d := doy - (153 * mp + 2) / 5 + 1
  let m := if mp < 10 then mp + 3 else mp - 9
  (if m ≤ 2 then y + 1 else y, m, d)

/-- `df.date.dt.month` of an epoch day. -/
def monthOf (z : Int) : Int := (civilFromDays z).2.1

/-- `df.date.dt.day` of an epoch day. -/
def dayOf (z : Int) : Int := (civilFromDays z).2.2

/-- `df.date.dt.year` of an epoch day. -/
def yearOf (z : Int) : Int := (civilFromDays z).1

/-- `df.date.dt.dayofweek`: Monday = 0 .. Sunday = 6.  Epoch day 0
(1970-01-01) is a Thursday, hence the offset 3; `%` on `Int` is the
always-nonnegative remainder, matching Python. -/
def dayOfWeek (z : Int) : Int := (z + 3) % 7

/-- `df.date.dt.quarter`: pandas computes the quarter of a timestamp from its
month as (month - 1) // 3 + 1. -/
def quarterOf (z : Int) : Int := (monthOf z - 1) / 3 + 1

/-- Two-digit zero padding, as in the `%m`, `%d` fields of `strftime`
(arguments here are always in 0..99). -/
def pad2 (n : Int) : String := if n < 10 then "0" ++ toString n.toNat else toString n.toNat

/-- `date.strftime of %m-%d`: the zero-padded month-day code of a date. -/
def monthDayStr (m d : Int) : String := pad2 m ++ "-" ++ pad2 d

/-- The fixed holiday list of `generate_feature_engineering` (app.py line 64). -/
def holidays : List String :=
  ["01-01", "02-14", "07-04", "11-11", "11-23", "11-27", "11-28", "12-25", "12-31"]

/-- The holiday set as (month, day) pairs, used to state the year-agnostic
holiday property; `holidays_eq_pairs` below ties it to the string list. -/
def holidayPairs : List (Int × Int) :=
  [(1, 1), (2, 14), (7, 4), (11, 11), (11, 23), (11, 27), (11, 28), (12, 25), (12, 31)]

/-- `assign_season` (app.py lines 50-58): membership tests on the month. -/
def assign_season (month : Int) : Int :=
  if month = 12 ∨ month = 1 ∨ month = 2 then 3
  else if month = 3 ∨ month = 4 ∨ month = 5 then 0
  else if month = 6 ∨ month = 7 ∨ month = 8 then 1
  else 2

/-- The `is_holiday` column entry for one date: `np.where` of the membership
of the `%m-%d` code in the holiday list (app.py lines 64-66). -/
def is_holiday (z : Int) : Int :=
  if monthDayStr (monthOf z) (dayOf z) ∈ holidays then 1 else 0

/-- The 14 consecutive epoch days starting at the start date
(app.py line 40). -/
def dates (start : Int) : List Int := (List.range 14).map (fun i : Nat => start + (i : Int))

/-- The numeric columns of the feature DataFrame in insertion order (app.py
lines 43-76).  The non-numeric helper columns `date` and `Month_Day` are not
represented: `Month_Day` is `monthDayStr` of the date and only feeds
`is_holiday`, and neither is selected into the output. -/
def featureFrame (start : Int) (avg mn mx : ℚ) : List (String × List ℚ) :=
  [("day_of_week", (dates start).map (fun z => (dayOfWeek z : ℚ))),
   ("Month", (dates start).map (fun z => (monthOf z : ℚ))),
   ("Season", (dates start).map (fun z => (assign_season (monthOf z) : ℚ))),
   ("quarter", (dates start).map (fun z => (quarterOf z : ℚ))),
   ("is_holiday", (dates start).map (fun z => (is_holiday z : ℚ))),
   ("day", (dates start).map (fun z => (dayOf z : ℚ))),
   ("year", (dates start).map (fun z => (yearOf z : ℚ))),
   ("minimum_nights", (dates start).map (fun _ => mn)),
   ("maximum_nights", (dates start).map (fun _ => mx)),
   ("price_lag", (dates start).map (fun _ => avg))]

/-- The `features` selection list of `generate_feature_engineering`
(app.py lines 79-82), in the order written in the source. -/
def features : List String :=
  ["minimum_nights", "maximum_nights", "price_lag", "day_of_week", "Month",
   "Season", "quarter", "is_holiday", "day", "year"]

/-- Column access by name, `df[c]`. -/
def colOf (df : List (String × List ℚ)) (c : String) : List ℚ := (df.lookup c).getD []

/-- `generate_feature_engineering` (app.py lines 35-84): the row-major value
table `df[features].values`, one row per date of the 14-day window. -/
def generate_feature_engineering (start : Int) (avg mn mx : ℚ) : List (List ℚ) :=
  (List.range 14).map (fun i =>
    features.map (fun c => ((colOf (featureFrame start avg mn mx) c)[i]?).getD 0))

/-- `sklearn._handle_zeros_in_scale`: a zero data range scales by 1. -/
def handleZerosInScale (r : ℚ) : ℚ := if r = 0 then 1 else r

/-- `MinMaxScaler.scale_` for one feature with default feature range (0, 1):
1 / (data_max_ - data_min_). -/
def mmScale (dmin dmax : ℚ) : ℚ := 1 / handleZerosInScale (dmax - dmin)

/-- `MinMaxScaler.min_` for one feature: 0 - data_min_ * scale_. -/
def mmMin (dmin dmax : ℚ) : ℚ := 0 - dmin * mmScale dmin dmax

/-- `MinMaxScaler.transform` on one entry: X * scale_ + min_. -/
def mmTf (dmin dmax x : ℚ) : ℚ := x * mmScale dmin dmax + mmMin dmin dmax

/-- `MinMaxScaler.inverse_transform` on one entry: (X - min_) / scale_. -/
def mmInv (dmin dmax x : ℚ) : ℚ := (x - mmMin dmin dmax) / mmScale dmin dmax

/-- Forward transform of one feature row, column j scaled with the j-th
(data_min_, data_max_) parameter pair. -/
def tfRow (ps : List (ℚ × ℚ)) (row : List ℚ) : List ℚ :=
  List.zipWith (fun p x => mmTf p.1 p.2 x) ps row

/-- Inverse transform of one feature row, column j inverse-scaled with the
j-th (data_min_, data_max_) parameter pair. -/
def invRow (ps : List (ℚ × ℚ)) (row : List ℚ) : List ℚ :=
  List.zipWith (fun p x => mmInv p.1 p.2 x) ps row

/-- A numpy array: shape plus row-major data. -/
structure NpArray where
  shape : List Nat
  data : List ℚ
deriving DecidableEq

/-- `np.reshape`: adopts the new shape when the element count matches,
otherwise raises. -/
def NpArray.reshape (a : NpArray) (s : List Nat) : Except String NpArray :=
  if a.data.length = s.prod then .ok ⟨s, a.data⟩
  else .error "cannot reshape array"

/-- `df.values` of a rectangular table: shape (rows, row width) with the
rows concatenated. -/
def npOfTable (t : List (List ℚ)) : NpArray :=
  ⟨[t.length, ((t.head?).getD []).length], t.flatten⟩

/-- A fitted `MinMaxScaler` (default feature range (0, 1)): the per-feature
fitted `data_min_`/`data_max_` vectors.  The app fits these on
`np.random.rand` samples, so the concrete values are arbitrary; they stay
parameters of every statement about the pipeline. -/
structure MMScaler where
  dataMin : List ℚ
  dataMax : List ℚ
deriving DecidableEq

/-- `n_features_in_` of a fitted scaler. -/
def MMScaler.nFeatures (s : MMScaler) : Nat := s.dataMin.length

/-- `scale_` of feature j. -/
def MMScaler.scaleAt (s : MMScaler) (j : Nat) : ℚ :=
  mmScale ((s.dataMin[j]?).getD 0) ((s.dataMax[j]?).getD 0)

/-- `min_` of feature j. -/
def MMScaler.minAt (s : MMScaler) (j : Nat) : ℚ :=
  mmMin ((s.dataMin[j]?).getD 0) ((s.dataMax[j]?).getD 0)

/-- `MinMaxScaler.transform`: validated to a 2-dim array whose second
dimension equals the fitted feature count, then entrywise
X * scale_ + min_ column by column. -/
def MMScaler.transform (s : MMScaler) (a : NpArray) : Except String NpArray :=
  match a.shape with
  | [r, c] =>
      if c = s.nFeatures then
        .ok ⟨[r, c], a.data.enum.map (fun p => p.2 * s.scaleAt (p.1 % c) + s.minAt (p.1 % c))⟩
      else .error "X has wrong number of features"
  | _ => .error "Expected 2D array"

/-- `MinMaxScaler.inverse_transform`: `check_array` (with `allow_nd = False`)
rejects arrays of more than 2 dimensions, then X -= min_, X /= scale_.  For a
single-feature scaler the (1,)-shaped parameters broadcast entrywise over the
2-dim array; otherwise the feature counts must agree. -/
def MMScaler.inverse_transform (s : MMScaler) (a : NpArray) : Except String NpArray :=
  if a.shape.length < 2 then .error "Expected 2D array"
  else if 2 < a.shape.length then
    .error ("Found array with dim " ++ toString a.shape.length ++ ". MinMaxScaler expected <= 2.")
  else if s.nFeatures = 1 then
    .ok ⟨a.shape, a.data.map (fun x => (x - s.minAt 0) / s.scaleAt 0)⟩
  else if (a.shape[1]?).getD 0 = s.nFeatures then
    .ok ⟨a.shape, a.data.enum.map (fun p =>
      (p.2 - s.minAt (p.1 % s.nFeatures)) / s.scaleAt (p.1 % s.nFeatures))⟩
  else .error "operands could not be broadcast together"

/-- `predict_prices` (app.py lines 86-105).  `sX`, `sY` are the globally
cached `scaler_X`, `scaler_y`; `modelFn` is the loaded model.  The
`reshape(-1, 10)` of the source resolves to (14, 10) for this 140-element
array, and the final `reshape(features_reshaped.shape)` is (1, 14, 10);
`.flatten()` of an array is its row-major data. -/
def predict_prices (sX sY : MMScaler) (modelFn : NpArray → Except String NpArray)
    (start : Int) (avg mn mx : ℚ) : Except String (List ℚ) :=
  let feats := npOfTable (generate_feature_engineering start avg mn mx)
  match feats.reshape [1, 14, 10] with
  | .error e => .error e
  | .ok features_reshaped =>
    match features_reshaped.reshape [14, 10] with
    | .error e => .error e
    | .ok flat =>
      match sX.transform flat with
      | .error e => .error e
      | .ok scaled =>
        match scaled.reshape [1, 14, 10] with
        | .error e => .error e
        | .ok features_scaled =>
          match modelFn features_scaled with
          | .error e => .error e
          | .ok predictions_scaled =>
            match sY.inverse_transform predictions_scaled with
            | .error e => .error e
            | .ok predictions => .ok predictions.data

/-- English month name, `strftime %B`. -/
def monthName (m : Int) : String :=
  if m = 1 then "January" else if m = 2 then "February" else if m = 3 then "March"
  else if m = 4 then "April" else if m = 5 then "May" else if m = 6 then "June"
  else if m = 7 then "July" else if m = 8 then "August" else if m = 9 then "September"
  else if m = 10 then "October" else if m = 11 then "November"
  else if m = 12 then "December" else ""

/-- English weekday name of a pandas day-of-week number, `strftime %A`. -/
def weekdayName (w : Int) : String :=
  if w = 0 then "Monday" else if w = 1 then "Tuesday" else if w = 2 then "Wednesday"
  else if w = 3 then "Thursday" else if w = 4 then "Friday"
  else if w = 5 then "Saturday" else if w = 6 then "Sunday" else ""

/-- `strftime of %B %d, %Y` for an epoch day (nonnegative years suffice
here). -/
def fmtDate (z : Int) : String :=
  monthName (monthOf z) ++ " " ++ pad2 (dayOf z) ++ ", " ++ toString (yearOf z).toNat

/-- The dollar format of the price column.  Models the Python `.2f` float
format for the nonnegative whole-cent values arising in this development. -/
def fmtPrice (q : ℚ) : String :=
  let c : Int := ⌊q * 100 + 1 / 2⌋
  "$" ++ toString (c / 100).toNat ++ "." ++ pad2 (c % 100)

/-- The literal first column of the prediction table (app.py line 132). -/
def dayLabels : List String :=
  ["Day #1", "Day #2", "Day #3", "Day #4", "Day #5", "Day #6", "Day #7"]

/-- `pd.DataFrame` of named columns: raises unless all columns have the same
length. -/
def mkDataFrame (cols : List (String × List String)) :
    Except String (List (String × List String)) :=
  if cols.all (fun c => c.2.length = ((cols.head?.map (fun c0 => c0.2.length)).getD 0)) then
    .ok cols
  else .error "All arrays must be of the same length"

/-- The `pred_df` construction of `main` (app.py lines 128-136): 7 day
labels, 7 dates offset +1 .. +7 from the start date, the formatted
predictions, and the 7 weekday names. -/
def predictionTable (start : Int) (predictions : List ℚ) :
    Except String (List (String × List String)) :=
  let ds := (List.range 7).map (fun i => start + ((i : Int) + 1))
  mkDataFrame
    [("", dayLabels),
     ("Date", ds.map fmtDate),
     ("Predicted Price", predictions.map fmtPrice),
     ("Day of the Week", ds.map (fun z => weekdayName (dayOfWeek z)))]

/-- What the trigger handler renders. -/
inductive Render where
  | table (cols : List (String × List String))
  | errorMsg (msg : String)
deriving DecidableEq

/-- The interaction states of the Presentation Layer. -/
inductive UIState where
  | Idle
  | Predicting
deriving DecidableEq

/-- The body of the Predict Prices trigger (app.py lines 122-156): the
try/except around prediction and table construction.  `st.error` renders the
f-string message; afterwards the script run ends and the interaction is idle
again. -/
def triggerHandler (sX sY : MMScaler) (modelFn : NpArray → Except String NpArray)
    (start : Int) (avg mn mx : ℚ) : Render × UIState :=
  match predict_prices sX sY modelFn start avg mn mx with
  | .error e => (.errorMsg ("An error occurred: " ++ e), .Idle)
  | .ok preds =>
    match predictionTable start preds with
    | .error e => (.errorMsg ("An error occurred: " ++ e), .Idle)
    | .ok cols => (.table cols, .Idle)

/-- Epoch day of 2024-01-01, the start date of the spec scenario. -/
def jan1_2024 : Int := daysFromCivil 2024 1 1

/-- A feature scaler whose fitted parameters make the transform the
identity on each of the 10 features (data range (0, 1)); one admissible
outcome of a fit, used to build concrete runs. -/
def identScaler10 : MMScaler := ⟨List.replicate 10 0, List.replicate 10 1⟩

/-- A target scaler on one feature with data range (0, 1): its transform and
inverse are the identity. -/
def identScaler1 : MMScaler := ⟨[0], [1]⟩

/-- A model artifact returning a 2-dim (14, 1) zero tensor for every input:
the shape under which the downstream numpy/sklearn calls are well-formed. -/
def model2D : NpArray → Except String NpArray :=
  fun _ => .ok ⟨[14, 1], List.replicate 14 0⟩

/-- A model artifact returning a 3-dim (1, 14, 1) zero tensor for every
input: the output shape hypothesized in the spec for the LSTM artifact. -/
def model3D : NpArray → Except String NpArray :=
  fun _ => .ok ⟨[1, 14, 1], List.replicate 14 0⟩

/-- The column order asserted by the spec (Feature Row of the data model,
section 3), written down independently of the `features` list of the
source. -/
def claimedOrder : List String :=
  ["minimum_nights", "maximum_nights", "price_lag", "day_of_week", "Month",
   "Season", "quarter", "is_holiday", "day", "year"]


/-! ### Helper lemmas -/

/-- Sanity anchor of the calendar model: the epoch and the scenario date
2024-01-01 (epoch day 19723) convert correctly, including the 2024 leap
day. -/
theorem calendar_anchor :
    daysFromCivil 1970 1 1 = 0 ∧ civilFromDays 0 = (1970, 1, 1) ∧
    jan1_2024 = 19723 ∧ civilFromDays 19723 = (2024, 1, 1) ∧
    civilFromDays (19723 + 59) = (2024, 2, 29) ∧ civilFromDays (19723 + 60) = (2024, 3, 1) := by
  decide

/-- The (month, day) pair list and the string holiday list of the source
denote the same nine dates. -/
theorem holidays_eq_pairs : holidayPairs.map (fun p => monthDayStr p.1 p.2) = holidays := by
  decide

/-- The month and day fields of any epoch day are in calendar range. -/
theorem month_day_bounds (z : Int) :
    1 ≤ monthOf z ∧ monthOf z ≤ 12 ∧ 1 ≤ dayOf z ∧ dayOf z ≤ 31 := by
  unfold monthOf dayOf civilFromDays
  simp only []
  omega

set_option maxHeartbeats 1000000 in
/-- For in-range month/day values, membership of the `%m-%d` code in the
holiday string list agrees with membership of the pair in `holidayPairs`. -/
theorem monthDay_bridge (m d : Int) (hm1 : 1 ≤ m) (hm2 : m ≤ 12) (hd1 : 1 ≤ d) (hd2 : d ≤ 31) :
    (monthDayStr m d ∈ holidays ↔ (m, d) ∈ holidayPairs) := by
  interval_cases m <;> interval_cases d <;> decide

theorem colOf_minimum_nights (start : Int) (avg mn mx : ℚ) :
    colOf (featureFrame start avg mn mx) "minimum_nights" = (dates start).map (fun _ => mn) := rfl

theorem colOf_maximum_nights (start : Int) (avg mn mx : ℚ) :
    colOf (featureFrame start avg mn mx) "maximum_nights" = (dates start).map (fun _ => mx) := rfl

theorem colOf_price_lag (start : Int) (avg mn mx : ℚ) :
    colOf (featureFrame start avg mn mx) "price_lag" = (dates start).map (fun _ => avg) := rfl

theorem colOf_day_of_week (start : Int) (avg mn mx : ℚ) :
    colOf (featureFrame start avg mn mx) "day_of_week" =
      (dates start).map (fun z => (dayOfWeek z : ℚ)) := rfl

theorem colOf_Month (start : Int) (avg mn mx : ℚ) :
    colOf (featureFrame start avg mn mx) "Month" =
      (dates start).map (fun z => (monthOf z : ℚ)) := rfl

theorem colOf_Season (start : Int) (avg mn mx : ℚ) :
    colOf (featureFrame start avg mn mx) "Season" =
      (dates start).map (fun z => (assign_season (monthOf z) : ℚ)) := rfl

theorem colOf_quarter (start : Int) (avg mn mx : ℚ) :
    colOf (featureFrame start avg mn mx) "quarter" =
      (dates start).map (fun z => (quarterOf z : ℚ)) := rfl

theorem colOf_is_holiday (start : Int) (avg mn mx : ℚ) :
    colOf (featureFrame start avg mn mx) "is_holiday" =
      (dates start).map (fun z => (is_holiday z : ℚ)) := rfl

theorem colOf_day (start : Int) (avg mn mx : ℚ) :
    colOf (featureFrame start avg mn mx) "day" =
      (dates start).map (fun z => (dayOf z : ℚ)) := rfl

theorem colOf_year (start : Int) (avg mn mx : ℚ) :
    colOf (featureFrame start avg mn mx) "year" =
      (dates start).map (fun z => (yearOf z : ℚ)) := rfl

/-- Indexing a mapped date column of the 14-day window. -/
theorem map_dates_getElem (f : Int → ℚ) (start : Int) (i : Nat) (h : i < 14) :
    ((dates start).map f)[i]? = some (f (start + i)) := by
  rw [dates, List.map_map, List.getElem?_map, List.getElem?_range h]
  rfl

/-- Row i of the generated feature table, as an explicit ten-entry list of
the engineered features of date start + i. -/
theorem genFE_row (start : Int) (avg mn mx : ℚ) (i : Nat) (h : i < 14) :
    (generate_feature_engineering start avg mn mx)[i]? =
      some [mn, mx, avg, (dayOfWeek (start + i) : ℚ), (monthOf (start + i) : ℚ),
            (assign_season (monthOf (start + i)) : ℚ), (quarterOf (start + i) : ℚ),
            (is_holiday (start + i) : ℚ), (dayOf (start + i) : ℚ), (yearOf (start + i) : ℚ)] := by
  have h14 : (List.range 14)[i]? = some i := List.getElem?_range h
  simp only [generate_feature_engineering, List.getElem?_map, h14, Option.map_some']
  simp only [features, List.map_cons, List.map_nil]
  rw [colOf_minimum_nights, colOf_maximum_nights, colOf_price_lag, colOf_day_of_week,
    colOf_Month, colOf_Season, colOf_quarter, colOf_is_holiday, colOf_day, colOf_year]
  simp only [map_dates_getElem _ _ _ h, Option.getD_some]

/-- The per-feature scale of a fitted min-max scaler is never zero. -/
theorem handleZerosInScale_ne_zero (r : ℚ) : handleZerosInScale r ≠ 0 := by
  unfold handleZerosInScale
  split <;> simp_all

theorem mmScale_ne_zero (dmin dmax : ℚ) : mmScale dmin dmax ≠ 0 :=
  one_div_ne_zero (handleZerosInScale_ne_zero _)

/-- Entrywise round trip of one min-max scaler: inverse after forward is the
identity, for every fitted parameter pair. -/
theorem mm_roundtrip (dmin dmax x : ℚ) : mmInv dmin dmax (mmTf dmin dmax x) = x := by
  unfold mmInv mmTf
  rw [add_sub_cancel_right, mul_div_cancel_right₀ _ (mmScale_ne_zero dmin dmax)]

/-- Row-level round trip of min-max scaling with matching column count. -/
theorem invRow_tfRow (ps : List (ℚ × ℚ)) (row : List ℚ) (h : row.length = ps.length) :
    invRow ps (tfRow ps row) = row := by
  induction ps generalizing row with
  | nil =>
    cases row with
    | nil => rfl
    | cons a l => simp at h
  | cons p ps ih =>
    cases row with
    | nil => simp at h
    | cons a l =>
      simp only [tfRow, invRow, List.zipWith_cons_cons] at *
      rw [mm_roundtrip, ih l (by simpa using h)]

/-- Claim C2: scaling a feature table forward and applying the inverse
transform of the same (correctly configured) scaler restores the table
exactly (the embedding computes in exact rational arithmetic, so the
floating-point tolerance of the claim becomes equality); composing the
forward transform of one fitted scaler with the inverse of an independently
fitted one, as `predict_prices` does with `scaler_X` and `scaler_y`, is not
the identity. -/
theorem C2_scaler_roundtrip :
    (∀ (ps : List (ℚ × ℚ)) (t : List (List ℚ)), (∀ r ∈ t, r.length = ps.length) →
        t.map (fun r => invRow ps (tfRow ps r)) = t) ∧
    mmInv 0 1 (mmTf 0 2 1) ≠ 1 := by
  constructor
  · intro ps t ht
    calc t.map (fun r => invRow ps (tfRow ps r)) = t.map id :=
          List.map_congr_left (fun r hr => invRow_tfRow ps r (ht r hr))
      _ = t := List.map_id t
  · norm_num [mmInv, mmTf, mmMin, mmScale, handleZerosInScale]

/-- Witness for C2 at a concrete table and parameter list. -/
theorem C2_scaler_roundtrip_witness :
    [[(5 : ℚ), 7]].map (fun r => invRow [(0, 2), (1, 3)] (tfRow [(0, 2), (1, 3)] r)) = [[5, 7]] :=
  C2_scaler_roundtrip.1 [(0, 2), (1, 3)] [[5, 7]] (by decide)

/-- Claim C3: for every start date and inputs, the feature table has exactly
14 rows of 10 columns, and the minimum_nights, maximum_nights and price_lag
columns hold the corresponding input in every row. -/
theorem C3_feature_table_shape (start : Int) (avg mn mx : ℚ) :
    (generate_feature_engineering start avg mn mx).length = 14 ∧
    ∀ i : Nat, i < 14 → ∃ row,
      (generate_feature_engineering start avg mn mx)[i]? = some row ∧ row.length = 10 ∧
      row[0]? = some mn ∧ row[1]? = some mx ∧ row[2]? = some avg := by
  exact ⟨by simp [generate_feature_engineering],
    fun i h => ⟨_, genFE_row start avg mn mx i h, rfl, rfl, rfl, rfl⟩⟩

/-- Witness for C3 at the spec scenario input and row 0. -/
theorem C3_feature_table_shape_witness :
    (generate_feature_engineering jan1_2024 100 1 7).length = 14 ∧ ∃ row,
      (generate_feature_engineering jan1_2024 100 1 7)[0]? = some row ∧ row.length = 10 ∧
      row[0]? = some 1 ∧ row[1]? = some 7 ∧ row[2]? = some 100 :=
  ⟨(C3_feature_table_shape jan1_2024 100 1 7).1,
   (C3_feature_table_shape jan1_2024 100 1 7).2 0 (by decide)⟩

/-- Claim C5: the season mapping sends months 12, 1, 2 to 3, months 3, 4, 5
to 0, months 6, 7, 8 to 1, and every other month of 1..12 to 2. -/
theorem C5_season_mapping :
    (∀ m : Int, m = 12 ∨ m = 1 ∨ m = 2 → assign_season m = 3) ∧
    (∀ m : Int, m = 3 ∨ m = 4 ∨ m = 5 → assign_season m = 0) ∧
    (∀ m : Int, m = 6 ∨ m = 7 ∨ m = 8 → assign_season m = 1) ∧
    (∀ m : Int, 1 ≤ m → m ≤ 12 →
      ¬(m = 12 ∨ m = 1 ∨ m = 2) → ¬(m = 3 ∨ m = 4 ∨ m = 5) → ¬(m = 6 ∨ m = 7 ∨ m = 8) →
      assign_season m = 2) := by
  refine ⟨?_, ?_, ?_, ?_⟩ <;> (intro m; intros; unfold assign_season; split_ifs <;> omega)

/-- Witness for C5 at one month of each season group. -/
theorem C5_season_mapping_witness :
    assign_season 12 = 3 ∧ assign_season 4 = 0 ∧ assign_season 7 = 1 ∧ assign_season 9 = 2 :=
  ⟨C5_season_mapping.1 12 (Or.inl rfl), C5_season_mapping.2.1 4 (Or.inr (Or.inl rfl)),
   C5_season_mapping.2.2.1 7 (Or.inr (Or.inl rfl)),
   C5_season_mapping.2.2.2 9 (by decide) (by decide) (by decide) (by decide) (by decide)⟩

/-- Claim C6: for every date of the 14-day window, the is_holiday entry is 1
exactly when the month-day pair of that date lies in the fixed 9-entry
holiday set, independently of the year, and 0 otherwise. -/
theorem C6_holiday_flag (start : Int) (avg mn mx : ℚ) (i : Nat) (h : i < 14) :
    ∃ row, (generate_feature_engineering start avg mn mx)[i]? = some row ∧
      (row[7]? = some 1 ↔ (monthOf (start + i), dayOf (start + i)) ∈ holidayPairs) ∧
      (row[7]? = some 0 ↔ (monthOf (start + i), dayOf (start + i)) ∉ holidayPairs) := by
  obtain ⟨hm1, hm2, hd1, hd2⟩ := month_day_bounds (start + i)
  have hb := monthDay_bridge _ _ hm1 hm2 hd1 hd2
  by_cases hmem : (monthOf (start + i), dayOf (start + i)) ∈ holidayPairs
  · have hstr : monthDayStr (monthOf (start + i)) (dayOf (start + i)) ∈ holidays := hb.mpr hmem
    refine ⟨_, genFE_row start avg mn mx i h, ?_, ?_⟩ <;>
      simp [is_holiday, hstr, hmem]
  · have hstr : monthDayStr (monthOf (start + i)) (dayOf (start + i)) ∉ holidays :=
      fun hc => hmem (hb.mp hc)
    refine ⟨_, genFE_row start avg mn mx i h, ?_, ?_⟩ <;>
      simp [is_holiday, hstr, hmem]

/-- Witness for C6 at the window starting 2024-01-01, row 0 (New Year,
a holiday). -/
theorem C6_holiday_flag_witness :
    ∃ row, (generate_feature_engineering jan1_2024 100 1 7)[0]? = some row ∧
      (row[7]? = some 1 ↔ (monthOf (jan1_2024 + (0 : Nat)), dayOf (jan1_2024 + (0 : Nat))) ∈ holidayPairs) ∧
      (row[7]? = some 0 ↔ (monthOf (jan1_2024 + (0 : Nat)), dayOf (jan1_2024 + (0 : Nat))) ∉ holidayPairs) :=
  C6_holiday_flag jan1_2024 100 1 7 0 (by decide)

/-- Claim C7: in the scenario start 2024-01-01, avg_price 100, min_nights 1,
max_nights 7, row 0 of the feature table has day_of_week 0 (Monday), month 1,
season 3, quarter 1, is_holiday 1, day 1, year 2024. -/
theorem C7_scenario_row0 :
    ∃ row, (generate_feature_engineering jan1_2024 100 1 7)[0]? = some row ∧
      row[3]? = some 0 ∧ row[4]? = some 1 ∧ row[5]? = some 3 ∧ row[6]? = some 1 ∧
      row[7]? = some 1 ∧ row[8]? = some 1 ∧ row[9]? = some 2024 :=
  ⟨_, genFE_row jan1_2024 100 1 7 0 (by decide),
    by decide, by decide, by decide, by decide, by decide, by decide, by decide⟩

/-- Claim C8: every row of the feature table lists, in order, exactly the
columns named by the spec: minimum_nights, maximum_nights, price_lag,
day_of_week, Month, Season, quarter, is_holiday, day, year (`claimedOrder`
is written from the spec; the selection on the right looks each name up in
the DataFrame by name). -/
theorem C8_column_order (start : Int) (avg mn mx : ℚ) (i : Nat) (h : i < 14) :
    ∃ row, (generate_feature_engineering start avg mn mx)[i]? = some row ∧
      row = claimedOrder.map (fun c => ((colOf (featureFrame start avg mn mx) c)[i]?).getD 0) := by
  refine ⟨_, genFE_row start avg mn mx i h, ?_⟩
  simp only [claimedOrder, List.map_cons, List.map_nil]
  rw [colOf_minimum_nights, colOf_maximum_nights, colOf_price_lag, colOf_day_of_week,
    colOf_Month, colOf_Season, colOf_quarter, colOf_is_holiday, colOf_day, colOf_year]
  simp only [map_dates_getElem _ _ _ h, Option.getD_some]

/-- Witness for C8 at the scenario input, row 0. -/
theorem C8_column_order_witness :
    ∃ row, (generate_feature_engineering jan1_2024 100 1 7)[0]? = some row ∧
      row = claimedOrder.map (fun c => ((colOf (featureFrame jan1_2024 100 1 7) c)[0]?).getD 0) :=
  C8_column_order jan1_2024 100 1 7 0 (by decide)

/-- Claim C10: row i of the feature table belongs to the date start + i: its
day_of_week entry is (day_of_week of start + i) mod 7, and its quarter entry
q and month entry m satisfy q = (m - 1) div 3 + 1. -/
theorem C10_row_date_alignment (start : Int) (avg mn mx : ℚ) (i : Nat) (h : i < 14) :
    ∃ row, (generate_feature_engineering start avg mn mx)[i]? = some row ∧
      row[3]? = some (((dayOfWeek start + i) % 7 : Int) : ℚ) ∧
      ∃ m q : Int, row[4]? = some (m : ℚ) ∧ row[6]? = some (q : ℚ) ∧ q = (m - 1) / 3 + 1 := by
  have hw : dayOfWeek (start + i) = (dayOfWeek start + i) % 7 := by
    unfold dayOfWeek
    omega
  exact ⟨_, genFE_row start avg mn mx i h,
    congrArg (fun t : Int => (some (t : ℚ) : Option ℚ)) hw,
    monthOf (start + i), quarterOf (start + i), rfl, rfl, rfl⟩

/-- Witness for C10 at the window starting 2024-01-01, row 1. -/
theorem C10_row_date_alignment_witness :
    ∃ row, (generate_feature_engineering jan1_2024 100 1 7)[1]? = some row ∧
      row[3]? = some (((dayOfWeek jan1_2024 + (1 : Nat)) % 7 : Int) : ℚ) ∧
      ∃ m q : Int, row[4]? = some (m : ℚ) ∧ row[6]? = some (q : ℚ) ∧ q = (m - 1) / 3 + 1 :=
  C10_row_date_alignment jan1_2024 100 1 7 1 (by decide)

/-- The flattened feature table always holds 14 * 10 = 140 values. -/
theorem genFE_flatten_length (start : Int) (avg mn mx : ℚ) :
    (generate_feature_engineering start avg mn mx).flatten.length = 140 := by
  simp [generate_feature_engineering, List.length_flatten, List.map_map, Function.comp_def,
    features]

/-- Every feature of the identity-configured 10-feature scaler scales by 1. -/
theorem identScaler10_scaleAt (j : Nat) : identScaler10.scaleAt j = 1 := by
  unfold MMScaler.scaleAt identScaler10
  rw [List.getElem?_replicate, List.getElem?_replicate]
  split_ifs <;> norm_num [mmScale, handleZerosInScale]

/-- Every feature of the identity-configured 10-feature scaler shifts by 0. -/
theorem identScaler10_minAt (j : Nat) : identScaler10.minAt j = 0 := by
  unfold MMScaler.minAt identScaler10
  rw [List.getElem?_replicate, List.getElem?_replicate]
  split_ifs <;> norm_num [mmMin, mmScale, handleZerosInScale]

theorem identScaler1_scaleAt : identScaler1.scaleAt 0 = 1 := by
  norm_num [MMScaler.scaleAt, identScaler1, mmScale, handleZerosInScale]

theorem identScaler1_minAt : identScaler1.minAt 0 = 0 := by
  norm_num [MMScaler.minAt, identScaler1, mmMin, mmScale, handleZerosInScale]

/-- The identity-configured feature scaler transforms a (14, 10) array to
itself. -/
theorem identScaler10_transform (d : List ℚ) :
    identScaler10.transform ⟨[14, 10], d⟩ = .ok ⟨[14, 10], d⟩ := by
  have hn : identScaler10.nFeatures = 10 := by
    simp [MMScaler.nFeatures, identScaler10]
  simp [MMScaler.transform, hn, identScaler10_scaleAt, identScaler10_minAt,
    List.enum_map_snd]

/-- The identity-configured target scaler inverse-transforms a (14, 1) array
to itself. -/
theorem identScaler1_inverse (d : List ℚ) :
    identScaler1.inverse_transform ⟨[14, 1], d⟩ = .ok ⟨[14, 1], d⟩ := by
  have hn : identScaler1.nFeatures = 1 := by
    simp [MMScaler.nFeatures, identScaler1]
  simp [MMScaler.inverse_transform, hn, identScaler1_scaleAt, identScaler1_minAt,
    List.map_id']

/-- Run of the predictor with identity scalers and the 2-dim-output model:
it succeeds with the 14 zero predictions. -/
theorem predict_prices_model2D (start : Int) (avg mn mx : ℚ) :
    predict_prices identScaler10 identScaler1 model2D start avg mn mx =
      .ok (List.replicate 14 0) := by
  have hT := genFE_flatten_length start avg mn mx
  have h1 : (npOfTable (generate_feature_engineering start avg mn mx)).reshape [1, 14, 10] =
      .ok ⟨[1, 14, 10], (generate_feature_engineering start avg mn mx).flatten⟩ := by
    simp [NpArray.reshape, npOfTable, hT]
  have h2 : (NpArray.mk [1, 14, 10] (generate_feature_engineering start avg mn mx).flatten).reshape
      [14, 10] = .ok ⟨[14, 10], (generate_feature_engineering start avg mn mx).flatten⟩ := by
    simp [NpArray.reshape, hT]
  have h4 : (NpArray.mk [14, 10] (generate_feature_engineering start avg mn mx).flatten).reshape
      [1, 14, 10] = .ok ⟨[1, 14, 10], (generate_feature_engineering start avg mn mx).flatten⟩ := by
    simp [NpArray.reshape, hT]
  simp only [predict_prices, h1, h2, identScaler10_transform, h4, model2D,
    identScaler1_inverse]

/-- Run of the predictor with identity scalers and the 3-dim-output model:
the target scaler rejects the 3-dim array. -/
theorem predict_prices_model3D (start : Int) (avg mn mx : ℚ) :
    predict_prices identScaler10 identScaler1 model3D start avg mn mx =
      .error "Found array with dim 3. MinMaxScaler expected <= 2." := by
  have hT := genFE_flatten_length start avg mn mx
  have h1 : (npOfTable (generate_feature_engineering start avg mn mx)).reshape [1, 14, 10] =
      .ok ⟨[1, 14, 10], (generate_feature_engineering start avg mn mx).flatten⟩ := by
    simp [NpArray.reshape, npOfTable, hT]
  have h2 : (NpArray.mk [1, 14, 10] (generate_feature_engineering start avg mn mx).flatten).reshape
      [14, 10] = .ok ⟨[14, 10], (generate_feature_engineering start avg mn mx).flatten⟩ := by
    simp [NpArray.reshape, hT]
  have h4 : (NpArray.mk [14, 10] (generate_feature_engineering start avg mn mx).flatten).reshape
      [1, 14, 10] = .ok ⟨[1, 14, 10], (generate_feature_engineering start avg mn mx).flatten⟩ := by
    simp [NpArray.reshape, hT]
  have h6 : identScaler1.inverse_transform ⟨[1, 14, 1], List.replicate 14 0⟩ =
      .error "Found array with dim 3. MinMaxScaler expected <= 2." := by
    simp only [MMScaler.inverse_transform]
    norm_num
    decide
  simp only [predict_prices, h1, h2, identScaler10_transform, h4, model3D, h6]

/-- A 14-entry prediction list makes the pred_df construction of `main`
raise: the other three columns have 7 entries. -/
theorem predictionTable_len14 (start : Int) (preds : List ℚ) (hp : preds.length = 14) :
    predictionTable start preds = .error "All arrays must be of the same length" := by
  simp [predictionTable, mkDataFrame, dayLabels, hp]

/-- Claim C1 is violated by the code: in a run that produces the 14
predictions (identity scalers, a well-formed model output), `pred_df` is
built from columns of lengths 7, 7, 14, 7, so `pd.DataFrame` raises and the
handler renders the error message instead of the 7-row table — the source
never slices the predictions to the first 7. -/
theorem C1_table_construction_fails :
    predict_prices identScaler10 identScaler1 model2D jan1_2024 100 1 7 =
      .ok (List.replicate 14 0) ∧
    triggerHandler identScaler10 identScaler1 model2D jan1_2024 100 1 7 =
      (Render.errorMsg "An error occurred: All arrays must be of the same length",
       UIState.Idle) := by
  have hp := predict_prices_model2D jan1_2024 100 1 7
  refine ⟨hp, ?_⟩
  simp only [triggerHandler, hp,
    predictionTable_len14 jan1_2024 (List.replicate 14 0) (by simp)]
  decide

/-- Claim C4: whenever the prediction pipeline raises, the trigger handler
catches the exception, renders a message containing the exception text, and
the interaction ends back in the Idle state (the handler is a total
function, so the process does not crash). -/
theorem C4_exception_caught (sX sY : MMScaler) (modelFn : NpArray → Except String NpArray)
    (start : Int) (avg mn mx : ℚ) (e : String)
    (h : predict_prices sX sY modelFn start avg mn mx = .error e) :
    triggerHandler sX sY modelFn start avg mn mx =
      (Render.errorMsg ("An error occurred: " ++ e), UIState.Idle) := by
  simp only [triggerHandler, h]

/-- Witness for C4: the concrete run whose model returns a 3-dim tensor
raises inside scaling, and the handler shows the message. -/
theorem C4_exception_caught_witness :
    triggerHandler identScaler10 identScaler1 model3D jan1_2024 100 1 7 =
      (Render.errorMsg ("An error occurred: " ++ "Found array with dim 3. MinMaxScaler expected <= 2."),
       UIState.Idle) :=
  C4_exception_caught identScaler10 identScaler1 model3D jan1_2024 100 1 7
    "Found array with dim 3. MinMaxScaler expected <= 2."
    (predict_prices_model3D jan1_2024 100 1 7)

/-- Claim C9 as stated is violated: with a model artifact that maps every
input to a (1, 14, 1) tensor (as the claim hypothesizes), the predictor
raises in `scaler_y.inverse_transform`, which rejects arrays of more than 2
dimensions, instead of returning 14 scalar predictions. -/
theorem C9_3d_output_counterexample :
    predict_prices identScaler10 identScaler1 model3D jan1_2024 100 1 7 =
      .error "Found array with dim 3. MinMaxScaler expected <= 2." ∧
    ∀ l : List ℚ, predict_prices identScaler10 identScaler1 model3D jan1_2024 100 1 7 ≠ .ok l := by
  refine ⟨predict_prices_model3D jan1_2024 100 1 7, fun l hc => ?_⟩
  rw [predict_prices_model3D jan1_2024 100 1 7] at hc
  exact Except.noConfusion hc

/-- Claim C9, amended: when the model artifact maps the (1, 14, 10) input to
a 2-dim (14, 1) tensor of 14 entries, the predictor returns a flat sequence
of exactly 14 scalar predictions, for every input and any fitted scaler
parameters with the feature counts the app fits (10 and 1). -/
theorem C9_predictor_returns_14 (sX sY : MMScaler) (modelFn : NpArray → Except String NpArray)
    (start : Int) (avg mn mx : ℚ)
    (hX : sX.nFeatures = 10) (hY : sY.nFeatures = 1)
    (hM : ∀ a : NpArray, a.shape = [1, 14, 10] →
      ∃ d, modelFn a = .ok ⟨[14, 1], d⟩ ∧ d.length = 14) :
    ∃ l, predict_prices sX sY modelFn start avg mn mx = .ok l ∧ l.length = 14 := by
  have hT := genFE_flatten_length start avg mn mx
  have h1 : (npOfTable (generate_feature_engineering start avg mn mx)).reshape [1, 14, 10] =
      .ok ⟨[1, 14, 10], (generate_feature_engineering start avg mn mx).flatten⟩ := by
    simp [NpArray.reshape, npOfTable, hT]
  have h2 : (NpArray.mk [1, 14, 10] (generate_feature_engineering start avg mn mx).flatten).reshape
      [14, 10] = .ok ⟨[14, 10], (generate_feature_engineering start avg mn mx).flatten⟩ := by
    simp [NpArray.reshape, hT]
  have h3 : sX.transform ⟨[14, 10], (generate_feature_engineering start avg mn mx).flatten⟩ =
      .ok ⟨[14, 10], (generate_feature_engineering start avg mn mx).flatten.enum.map
        (fun p => p.2 * sX.scaleAt (p.1 % 10) + sX.minAt (p.1 % 10))⟩ := by
    simp [MMScaler.transform, hX]
  have hlen2 : ((generate_feature_engineering start avg mn mx).flatten.enum.map
      (fun p => p.2 * sX.scaleAt (p.1 % 10) + sX.minAt (p.1 % 10))).length = 140 := by
    rw [List.length_map, List.enum_length, hT]
  have h4 : (NpArray.mk [14, 10] ((generate_feature_engineering start avg mn mx).flatten.enum.map
      (fun p => p.2 * sX.scaleAt (p.1 % 10) + sX.minAt (p.1 % 10)))).reshape [1, 14, 10] =
      .ok ⟨[1, 14, 10], (generate_feature_engineering start avg mn mx).flatten.enum.map
        (fun p => p.2 * sX.scaleAt (p.1 % 10) + sX.minAt (p.1 % 10))⟩ := by
    simp [NpArray.reshape, hlen2]
  obtain ⟨d, hm, hd⟩ := hM ⟨[1, 14, 10], (generate_feature_engineering start avg mn mx).flatten.enum.map
      (fun p => p.2 * sX.scaleAt (p.1 % 10) + sX.minAt (p.1 % 10))⟩ rfl
  have h6 : sY.inverse_transform ⟨[14, 1], d⟩ =
      .ok ⟨[14, 1], d.map (fun x => (x - sY.minAt 0) / sY.scaleAt 0)⟩ := by
    simp [MMScaler.inverse_transform, hY]
  refine ⟨d.map (fun x => (x - sY.minAt 0) / sY.scaleAt 0), ?_, ?_⟩
  · simp only [predict_prices, h1, h2, h3, h4, hm, h6]
  · rw [List.length_map, hd]

/-- Witness for the amended C9 at the identity scalers and the 2-dim-output
model. -/
theorem C9_predictor_returns_14_witness :
    ∃ l, predict_prices identScaler10 identScaler1 model2D jan1_2024 100 1 7 = .ok l ∧
      l.length = 14 :=
  C9_predictor_returns_14 identScaler10 identScaler1 model2D jan1_2024 100 1 7
    (by simp [MMScaler.nFeatures, identScaler10])
    (by simp [MMScaler.nFeatures, identScaler1])
    (fun a _ => ⟨List.replicate 14 0, rfl, by simp⟩)

end AirBnbApp
